import Mathlib

/-!
Call-trace model of `main` in `write_shotfiles.c`.

`main` is a fixed sequence of calls into the external shotfile library
(`ww*_` to write, `dd*_` to read, `xxerror_` to report).  The library is not
part of the repository, so it is represented by the only thing the program
reads back from it: the error code each call stores through `&err`.  The
`n`-th shotfile call (counting from 0, `xxerror_` not counted) stores
`lib n`.  A library call changes `err` and its output buffers only; the
integers handed over by address (`shot`, `ed`, `k1`, `k2`, `typ`, `stride`,
`length`, `t`, `ind`, `sizes`, `control`) keep their value, and `xxerror_`
returns.

The program state is the set of local variables that the program itself
assigns, plus two ghost fields: the number of shotfile calls made so far and
the trace of calls issued.  All `int` values stay far inside the 32-bit
range (the largest is 5010), so they are plain integers.
-/

namespace WriteShotfiles

/-- Local variables of `main` (lines 6-8). -/
inductive Var
  | err | unit | control | diaref | shot | ed | k1 | k2 | i | k | t | ncal
  | stride | ind | length | rt | typ | sizes | adim | index
  | data | time | datsig | adat
  | exp | diag | name | tname | sgname | tim | physdim
  deriving DecidableEq, Repr

/-- Declared element capacity of the `float` arrays (line 7). -/
def capacity : Var → Nat
  | .data => 182
  | .time => 223
  | .datsig => 10
  | .adat => 16
  | _ => 0

/-- External routines called by `main`. -/
inductive Routine
  | wwopen_ | wwtbase_ | wwainsert_ | wwinsert_ | wwclose_
  | ddopen_ | ddainfo_ | ddagroup_ | ddcsgrp_ | ddcxsig_ | ddclose_
  | xxerror_
  deriving DecidableEq, Repr

/-- One actual argument of a call, as written at the call site. -/
inductive Arg
  /-- Address of `v` where the callee owns the content (result slot, handle,
  output buffer): only the identity of the variable is recorded. -/
  | ptr (v : Var)
  /-- Address of an `int` the program has set: the variable and its value at
  the time of the call. -/
  | int (v : Var) (val : Int)
  /-- An `int[3]` the program has filled: the variable and its elements. -/
  | ints (v : Var) (vals : List Int)
  /-- A `char[]` variable holding the C string `s`. -/
  | cstr (v : Var) (s : String)
  /-- A string literal. -/
  | lit (s : String)
  /-- Pointer `v + off` into the `float` array `v` (element offset `off`). -/
  | floats (v : Var) (off : Nat)
  /-- An `int` passed by value (the hidden string lengths). -/
  | byval (n : Int)
  deriving DecidableEq, Repr

/-- A call in the trace: the routine and its argument list in source order. -/
structure Call where
  fn : Routine
  args : List Arg
  deriving DecidableEq, Repr

/-- An `int[3]` array. -/
structure Arr3 where
  e0 : Int
  e1 : Int
  e2 : Int
  deriving DecidableEq, Repr

/-- The elements of an `int[3]` in order. -/
def Arr3.toList (a : Arr3) : List Int := [a.e0, a.e1, a.e2]

/-- Program-owned variables, the call counter and the trace. -/
structure State where
  err : Int
  unit : Int
  control : Int
  shot : Int
  ed : Int
  k1 : Int
  k2 : Int
  k : Int
  t : Int
  stride : Int
  ind : Arr3
  length : Int
  typ : Int
  sizes : Arr3
  exp : String
  diag : String
  name : String
  tname : String
  sgname : String
  ncall : Nat
  trace : List Call

/-- Line 6: the initialisers.  `unit`, `k`, `t`, `ind`, `length`, `sizes` and
the `char` arrays have no initialiser; each is assigned before it is first
read, and `0` / the empty string stands for the indeterminate value. -/
def init : State :=
  { err := 0, unit := 0, control := 3, shot := 5010, ed := -1, k1 := 1, k2 := 1,
    k := 0, t := 0, stride := 1, ind := ⟨0, 0, 0⟩, length := 0, typ := 2,
    sizes := ⟨0, 0, 0⟩, exp := "", diag := "", name := "", tname := "",
    sgname := "", ncall := 0, trace := [] }

/-- A call of a shotfile routine: it is appended to the trace and the
library stores its error code in `err`. -/
def libcall (lib : Nat → Int) (f : Routine) (args : List Arg) (s : State) : State :=
  { s with err := lib s.ncall, ncall := s.ncall + 1, trace := s.trace ++ [⟨f, args⟩] }

/-- The statement `if (err != 0) xxerror_ (&err,&control," ",1);`. -/
def check (s : State) : State :=
  if s.err ≠ 0 then
    { s with trace := s.trace ++
        [⟨.xxerror_, [.int .err s.err, .int .control s.control, .lit " ", .byval 1]⟩] }
  else s

/-- Lines 33-38: the body of the `for` loop. -/
def loopBody (lib : Nat → Int) (s : State) : State :=
  let s : State := { s with ind := { s.ind with e0 := 1 + s.k } }
  let s : State := { s with ind := { s.ind with e1 := 0 } }
  let s : State := { s with ind := { s.ind with e2 := 0 } }
  let s : State := { s with length := 16 }
  let s : State := libcall lib .wwinsert_
    [.ptr .err, .ptr .diaref, .cstr .sgname s.sgname, .int .typ s.typ,
     .int .length s.length, .floats .data 0, .int .stride s.stride,
     .ints .ind s.ind.toList, .byval 8] s
  check s

/-- Lines 32-39: `for (k = 0; k < length; k++) { ... }` from the test of the
condition onwards (`k = 0` is done by the caller).  The bound `length` is
re-read at every test. -/
def loop (lib : Nat → Int) (s : State) : State :=
  if s.k < s.length then
    let s1 := loopBody lib s
    loop lib { s1 with k := s1.k + 1 }
  else s
termination_by (max s.length 16 - s.k).toNat
decreasing_by
  simp only [loopBody, libcall, check]
  split <;> (simp only []; omega)

/-- Lines 9-14: `unit = shot` and the five `strcpy` calls. -/
def setup (s : State) : State :=
  let s : State := { s with unit := s.shot }
  let s : State := { s with exp := "AUGD" }
  let s : State := { s with diag := "YPR" }
  let s : State := { s with name := "rp" }
  let s : State := { s with tname := "time" }
  let s : State := { s with sgname := "Te" }
  s

/-- Lines 22-31: open for write, time base, array insert. -/
def writeHeader (lib : Nat → Int) (s : State) : State :=
  let s : State := libcall lib .wwopen_
    [.ptr .err, .cstr .exp s.exp, .cstr .diag s.diag, .int .shot s.shot, .lit "new",
     .int .ed s.ed, .ptr .diaref, .ptr .tim, .byval 4, .byval 3, .byval 3, .byval 18] s
  let s : State := check s
  let s : State := { s with length := 223 }
  let s : State := libcall lib .wwtbase_
    [.ptr .err, .ptr .diaref, .cstr .tname s.tname, .int .typ s.typ,
     .int .length s.length, .floats .time 0, .int .stride s.stride, .byval 8] s
  let s : State := check s
  let s : State := { s with sizes := { s.sizes with e0 := 16 } }
  let s : State := { s with sizes := { s.sizes with e1 := 0 } }
  let s : State := { s with sizes := { s.sizes with e2 := 0 } }
  let s : State := libcall lib .wwainsert_
    [.ptr .err, .ptr .diaref, .cstr .name s.name, .int .k1 s.k1, .int .k2 s.k2,
     .int .typ s.typ, .floats .adat 0, .ints .sizes s.sizes.toList, .byval 8] s
  check s

/-- Lines 40-41: close for write. -/
def writeClose (lib : Nat → Int) (s : State) : State :=
  let s : State := libcall lib .wwclose_
    [.ptr .err, .ptr .diaref, .lit "lock", .lit "maxspace", .byval 4, .byval 8] s
  check s

/-- Lines 44-60: read the shotfile back. -/
def readBack (lib : Nat → Int) (s : State) : State :=
  let s : State := { s with t := s.k2 - s.k1 + 1 }
  let s : State := libcall lib .ddopen_
    [.ptr .err, .cstr .exp s.exp, .cstr .diag s.diag, .int .shot s.shot, .int .ed s.ed,
     .ptr .diaref, .ptr .tim, .byval 4, .byval 3, .byval 18] s
  let s : State := check s
  let s : State := libcall lib .ddainfo_
    [.ptr .err, .ptr .diaref, .cstr .sgname s.sgname, .ptr .sizes, .ptr .adim,
     .ptr .index, .byval 8] s
  let s : State := check s
  let s : State := libcall lib .ddagroup_
    [.ptr .err, .ptr .diaref, .cstr .sgname s.sgname, .int .k1 s.k1, .int .k2 s.k2,
     .int .typ s.typ, .int .t s.t, .floats .adat 0, .ptr .rt, .byval 8] s
  let s : State := check s
  let s : State := libcall lib .ddcsgrp_
    [.ptr .err, .ptr .diaref, .cstr .sgname s.sgname, .int .k1 s.k1, .int .k2 s.k2,
     .int .typ s.typ, .int .length s.length, .floats .data 0, .ptr .rt, .ptr .ncal,
     .ptr .physdim, .byval 8, .byval 12] s
  let s : State := check s
  let s : State := { s with ind := { s.ind with e0 := 1 } }
  let s : State := { s with ind := { s.ind with e1 := 0 } }
  let s : State := { s with ind := { s.ind with e2 := 0 } }
  let s : State := libcall lib .ddcxsig_
    [.ptr .err, .ptr .diaref, .cstr .sgname s.sgname, .int .k1 s.k1, .int .k2 s.k2,
     .ints .ind s.ind.toList, .int .typ s.typ, .int .length s.length, .floats .data 0,
     .ptr .rt, .ptr .ncal, .ptr .physdim, .byval 8, .byval 12] s
  let s : State := check s
  let s : State := libcall lib .ddclose_ [.ptr .err, .ptr .diaref] s
  check s

/-- The body of `main`, lines 6-60, in source order; the result is the final
state, whose `trace` field lists every call issued. -/
def main (lib : Nat → Int) : State :=
  let s : State := setup init
  let s : State := writeHeader lib s
  let s : State := { s with k := 0 }
  let s : State := loop lib s
  let s : State := writeClose lib s
  readBack lib s

/-- The calls `main` issues, in order. -/
def trace (lib : Nat → Int) : List Call := (main lib).trace

/-! ## The expected trace -/

/-- The `xxerror_` call made for error code `e` with control value `c`. -/
def errorCall (e c : Int) : Call :=
  ⟨.xxerror_, [.int .err e, .int .control c, .lit " ", .byval 1]⟩

/-- What follows a shotfile call that stored error code `e`: one `xxerror_`
call when `e` is non-zero, nothing otherwise. -/
def report (e : Int) : List Call := if e ≠ 0 then [errorCall e 3] else []

/-- The calls `cs` issued in order, the first of them being shotfile call
number `i`, each followed by its report. -/
def interleave (lib : Nat → Int) : Nat → List Call → List Call
  | _, [] => []
  | i, c :: cs => c :: (report (lib i) ++ interleave lib (i + 1) cs)

/-- The `wwinsert_` call of the loop iteration that writes index `j`. -/
def insertCall (j : Int) : Call :=
  ⟨.wwinsert_, [.ptr .err, .ptr .diaref, .cstr .sgname "Te", .int .typ 2, .int .length 16,
    .floats .data 0, .int .stride 1, .ints .ind [j, 0, 0], .byval 8]⟩

/-- The `wwinsert_` calls for the `n` indices `j, j+1, ...`. -/
def insertCalls (j : Int) : Nat → List Call
  | 0 => []
  | n + 1 => insertCall j :: insertCalls (j + 1) n

/-- The shotfile calls before the loop. -/
def headCalls : List Call :=
  [⟨.wwopen_, [.ptr .err, .cstr .exp "AUGD", .cstr .diag "YPR", .int .shot 5010, .lit "new",
      .int .ed (-1), .ptr .diaref, .ptr .tim, .byval 4, .byval 3, .byval 3, .byval 18]⟩,
   ⟨.wwtbase_, [.ptr .err, .ptr .diaref, .cstr .tname "time", .int .typ 2, .int .length 223,
      .floats .time 0, .int .stride 1, .byval 8]⟩,
   ⟨.wwainsert_, [.ptr .err, .ptr .diaref, .cstr .name "rp", .int .k1 1, .int .k2 1,
      .int .typ 2, .floats .adat 0, .ints .sizes [16, 0, 0], .byval 8]⟩]

/-- The shotfile calls after the loop. -/
def tailCalls : List Call :=
  [⟨.wwclose_, [.ptr .err, .ptr .diaref, .lit "lock", .lit "maxspace", .byval 4, .byval 8]⟩,
   ⟨.ddopen_, [.ptr .err, .cstr .exp "AUGD", .cstr .diag "YPR", .int .shot 5010, .int .ed (-1),
      .ptr .diaref, .ptr .tim, .byval 4, .byval 3, .byval 18]⟩,
   ⟨.ddainfo_, [.ptr .err, .ptr .diaref, .cstr .sgname "Te", .ptr .sizes, .ptr .adim,
      .ptr .index, .byval 8]⟩,
   ⟨.ddagroup_, [.ptr .err, .ptr .diaref, .cstr .sgname "Te", .int .k1 1, .int .k2 1,
      .int .typ 2, .int .t 1, .floats .adat 0, .ptr .rt, .byval 8]⟩,
   ⟨.ddcsgrp_, [.ptr .err, .ptr .diaref, .cstr .sgname "Te", .int .k1 1, .int .k2 1,
      .int .typ 2, .int .length 16, .floats .data 0, .ptr .rt, .ptr .ncal, .ptr .physdim,
      .byval 8, .byval 12]⟩,
   ⟨.ddcxsig_, [.ptr .err, .ptr .diaref, .cstr .sgname "Te", .int .k1 1, .int .k2 1,
      .ints .ind [1, 0, 0], .int .typ 2, .int .length 16, .floats .data 0, .ptr .rt,
      .ptr .ncal, .ptr .physdim, .byval 8, .byval 12]⟩,
   ⟨.ddclose_, [.ptr .err, .ptr .diaref]⟩]

/-- The shotfile calls of a run: three before the loop, sixteen `wwinsert_`
for the indices 1 to 16, seven after the loop. -/
def libCalls : List Call := headCalls ++ insertCalls 1 16 ++ tailCalls

/-- The shotfile calls of a trace: everything but the `xxerror_` calls. -/
def shotfileCalls (tr : List Call) : List Call := tr.filter (fun c => c.fn ≠ .xxerror_)

/-! ## Reading a trace -/

/-- The argument lists of the calls of routine `r` in a trace, in order. -/
def argsOf (r : Routine) (tr : List Call) : List (List Arg) :=
  (tr.filter (fun c => c.fn = r)).map (fun c => c.args)

/-- The routine names of the shotfile calls of a trace, in order. -/
def callNames (tr : List Call) : List Routine := (shotfileCalls tr).map (fun c => c.fn)

/-- The argument at position `i` of every call of routine `r`, in order. -/
def argAt (r : Routine) (i : Nat) (tr : List Call) : List (Option Arg) :=
  (argsOf r tr).map (fun a => a[i]?)

/-- The element count a call passes, the `float` array passed with it and
the element offset of the pointer into that array, for the routines that
take a count and a buffer.  For `wwainsert_` the count is `sizes[0]`. -/
def countAndBuffer (c : Call) : Option (Int × Var × Nat) :=
  match c.fn, c.args with
  | .wwtbase_, [_, _, _, _, .int _ n, .floats v off, _, _] => some (n, v, off)
  | .wwainsert_, [_, _, _, _, _, _, .floats v off, .ints _ (n :: _), _] => some (n, v, off)
  | .wwinsert_, [_, _, _, _, .int _ n, .floats v off, _, _, _] => some (n, v, off)
  | .ddagroup_, [_, _, _, _, _, _, .int _ n, .floats v off, _, _] => some (n, v, off)
  | .ddcsgrp_, [_, _, _, _, _, _, .int _ n, .floats v off, _, _, _, _, _] =>
    some (n, v, off)
  | .ddcxsig_, [_, _, _, _, _, _, _, .int _ n, .floats v off, _, _, _, _, _] =>
    some (n, v, off)
  | _, _ => none

/-- A count of `n` elements read or written from element `off` of the array
`v` on is positive and stays inside the declared capacity of `v`. -/
def withinCapacity (p : Int × Var × Nat) : Bool :=
  decide (0 < p.1 ∧ p.1 + (p.2.2 : Int) ≤ (capacity p.2.1 : Int))

/-- An error sequence in which only the first call (`wwopen_`) fails. -/
def failOpen (n : Nat) : Int := if n = 0 then 1 else 0

/-- The error-free run. -/
def noError (_ : Nat) : Int := 0

/-- The reading of "abort on failure": when call number `n` is the first to
store a non-zero code, `xxerror_` is called with it and call `n` is the last
shotfile call, so `n + 1` shotfile calls are issued in all. -/
def AbortsOnFailure (lib : Nat → Int) : Prop :=
  ∀ n, n < 26 → lib n ≠ 0 → (∀ m, m < n → lib m = 0) →
    errorCall (lib n) 3 ∈ trace lib ∧ (shotfileCalls (trace lib)).length = n + 1

instance (lib : Nat → Int) : Decidable (AbortsOnFailure lib) := by
  unfold AbortsOnFailure
  infer_instance

/-! ## The trace of `main` -/

theorem check_libcall (lib : Nat → Int) (f : Routine) (a : List Arg) (s : State) :
    check (libcall lib f a s) =
      { s with err := lib s.ncall, ncall := s.ncall + 1,
               trace := s.trace ++ (⟨f, a⟩ ::
                 (if lib s.ncall ≠ 0 then [errorCall (lib s.ncall) s.control] else [])) } := by
  unfold check libcall errorCall
  by_cases h : lib s.ncall = 0 <;> simp [h]

theorem loopBody_eq (lib : Nat → Int) (s : State) (h1 : s.sgname = "Te") (h2 : s.typ = 2)
    (h3 : s.stride = 1) (hc : s.control = 3) :
    loopBody lib s =
      { s with ind := ⟨1 + s.k, 0, 0⟩, length := 16, err := lib s.ncall,
               ncall := s.ncall + 1,
               trace := s.trace ++ (insertCall (1 + s.k) :: report (lib s.ncall)) } := by
  simp only [loopBody, check_libcall]
  simp [h1, h2, h3, hc, insertCall, Arr3.toList, report]

theorem interleave_append (lib : Nat → Int) (xs ys : List Call) (i : Nat) :
    interleave lib i (xs ++ ys) = interleave lib i xs ++ interleave lib (i + xs.length) ys := by
  induction xs generalizing i with
  | nil => simp [interleave]
  | cons x xs ih =>
    simp [interleave, ih, Nat.add_assoc, Nat.add_comm 1]

theorem loop_spec (lib : Nat → Int) (n : Nat) :
    ∀ s : State, s.length = 16 → s.k + n = 16 → s.sgname = "Te" → s.typ = 2 →
      s.stride = 1 → s.control = 3 →
      ∃ e i, loop lib s =
        { s with k := 16, err := e, ind := i, ncall := s.ncall + n,
                 trace := s.trace ++ interleave lib s.ncall (insertCalls (s.k + 1) n) } := by
  induction n with
  | zero =>
    intro s hl hk _ _ _ _
    refine ⟨s.err, s.ind, ?_⟩
    rw [loop]
    have : ¬ s.k < s.length := by omega
    have hk16 : s.k = 16 := by omega
    simp [this, insertCalls, interleave, ← hk16]
  | succ n ih =>
    intro s hl hk h1 h2 h3 hc
    rw [loop]
    have hlt : s.k < s.length := by omega
    simp only [hlt, if_true]
    rw [loopBody_eq lib s h1 h2 h3 hc]
    obtain ⟨e, i, h⟩ := ih
      { s with
        ind := ⟨1 + s.k, 0, 0⟩
        length := 16
        err := (lib s.ncall)
        ncall := s.ncall + 1
        trace := s.trace ++ (insertCall (1 + s.k) :: report (lib s.ncall))
        k := s.k + 1 }
      rfl (by simp only []; omega) h1 h2 h3 hc
    refine ⟨e, i, ?_⟩
    rw [h]
    simp [insertCalls, interleave, Nat.add_assoc, Nat.add_comm 1, Int.add_comm 1, hl]

theorem loop_first (lib : Nat → Int) (s : State) (hl : s.length = 223) (hk : s.k = 0)
    (h1 : s.sgname = "Te") (h2 : s.typ = 2) (h3 : s.stride = 1) (hc : s.control = 3) :
    ∃ e i, loop lib s =
      { s with k := 16, err := e, ind := i, length := 16, ncall := s.ncall + 16,
               trace := s.trace ++ interleave lib s.ncall (insertCalls 1 16) } := by
  rw [loop]
  have hlt : s.k < s.length := by omega
  simp only [hlt, if_true]
  rw [loopBody_eq lib s h1 h2 h3 hc]
  obtain ⟨e, i, h⟩ := loop_spec lib 15
    { s with
      ind := ⟨1 + s.k, 0, 0⟩
      length := 16
      err := (lib s.ncall)
      ncall := s.ncall + 1
      trace := s.trace ++ (insertCall (1 + s.k) :: report (lib s.ncall))
      k := s.k + 1 }
    rfl (by simp only []; omega) h1 h2 h3 hc
  refine ⟨e, i, ?_⟩
  rw [h]
  simp [insertCalls, interleave, Nat.add_assoc, hk]

theorem setup_init :
    setup init =
      { init with unit := 5010, exp := "AUGD", diag := "YPR", name := "rp", tname := "time",
                  sgname := "Te" } := rfl

theorem writeHeader_spec (lib : Nat → Int) (s : State) (h1 : s.exp = "AUGD")
    (h2 : s.diag = "YPR") (h3 : s.name = "rp") (h4 : s.tname = "time") (h5 : s.shot = 5010)
    (h6 : s.ed = -1) (h7 : s.k1 = 1) (h8 : s.k2 = 1) (h9 : s.typ = 2) (h10 : s.stride = 1)
    (hc : s.control = 3) :
    writeHeader lib s =
      { s with err := lib (s.ncall + 2), length := 223, sizes := ⟨16, 0, 0⟩,
               ncall := s.ncall + 3,
               trace := s.trace ++ interleave lib s.ncall headCalls } := by
  simp only [writeHeader, check_libcall]
  simp [h1, h2, h3, h4, h5, h6, h7, h8, h9, h10, hc, headCalls, interleave, Arr3.toList, report]

theorem tail_spec (lib : Nat → Int) (s : State) (h1 : s.exp = "AUGD") (h2 : s.diag = "YPR")
    (h3 : s.sgname = "Te") (h5 : s.shot = 5010) (h6 : s.ed = -1) (h7 : s.k1 = 1)
    (h8 : s.k2 = 1) (h9 : s.typ = 2) (hl : s.length = 16) (hc : s.control = 3) :
    (readBack lib (writeClose lib s)).trace = s.trace ++ interleave lib s.ncall tailCalls := by
  simp only [readBack, writeClose, check_libcall]
  simp [h1, h2, h3, h5, h6, h7, h8, h9, hl, hc, tailCalls, interleave, Arr3.toList, report,
    Nat.add_assoc]

/-- The trace of `main` is the fixed list of shotfile calls, each followed by
its report. -/
theorem main_trace (lib : Nat → Int) : trace lib = interleave lib 0 libCalls := by
  unfold trace main
  simp only []
  rw [setup_init, writeHeader_spec lib _ rfl rfl rfl rfl rfl rfl rfl rfl rfl rfl rfl]
  obtain ⟨e, i, h⟩ := loop_first lib
    { init with
      unit := 5010
      exp := "AUGD"
      diag := "YPR"
      name := "rp"
      tname := "time"
      sgname := "Te"
      err := (lib 2)
      length := 223
      sizes := ⟨16, 0, 0⟩
      ncall := 3
      trace := interleave lib 0 headCalls
      k := 0 }
    rfl rfl rfl rfl rfl rfl
  simp only [init, Nat.zero_add, List.nil_append] at h ⊢
  rw [h, tail_spec lib _ rfl rfl rfl rfl rfl rfl rfl rfl rfl rfl]
  simp only [libCalls, interleave_append]
  rfl

theorem filter_interleave (lib : Nat → Int) (p : Call → Bool)
    (hp : ∀ e, p (errorCall e 3) = false) (cs : List Call) :
    ∀ i, (interleave lib i cs).filter p = cs.filter p := by
  induction cs with
  | nil => intro i; rfl
  | cons c cs ih =>
    intro i
    have hr : (report (lib i)).filter p = [] := by
      unfold report
      split <;> simp [hp]
    simp only [interleave, List.filter_cons, List.filter_append, hr, ih, List.nil_append]

theorem filterMap_interleave {α : Type} (lib : Nat → Int) (f : Call → Option α)
    (hf : ∀ e, f (errorCall e 3) = none) (cs : List Call) :
    ∀ i, (interleave lib i cs).filterMap f = cs.filterMap f := by
  induction cs with
  | nil => intro i; rfl
  | cons c cs ih =>
    intro i
    have hr : (report (lib i)).filterMap f = [] := by
      unfold report
      split <;> simp [hf]
    simp only [interleave, List.filterMap_cons, List.filterMap_append, hr, ih,
      List.nil_append]

theorem libCalls_shotfile : shotfileCalls libCalls = libCalls := by decide

/-- The shotfile calls of any run are the fixed list `libCalls`. -/
theorem shotfileCalls_trace (lib : Nat → Int) : shotfileCalls (trace lib) = libCalls := by
  rw [main_trace]
  unfold shotfileCalls
  rw [filter_interleave lib _ (fun _ => rfl)]
  exact libCalls_shotfile

theorem filter_trace (lib : Nat → Int) (p : Call → Bool)
    (hp : ∀ e, p (errorCall e 3) = false) :
    (trace lib).filter p = libCalls.filter p := by
  rw [main_trace, filter_interleave lib p hp]

theorem filterMap_trace {α : Type} (lib : Nat → Int) (f : Call → Option α)
    (hf : ∀ e, f (errorCall e 3) = none) :
    (trace lib).filterMap f = libCalls.filterMap f := by
  rw [main_trace, filterMap_interleave lib f hf]

theorem argsOf_trace (lib : Nat → Int) (r : Routine) (hr : r ≠ .xxerror_) :
    argsOf r (trace lib) = argsOf r libCalls := by
  unfold argsOf
  rw [filter_trace lib _ (fun e => by simpa [errorCall] using Ne.symm hr)]

theorem shotfileCalls_interleave (lib : Nat → Int) (cs : List Call)
    (h : ∀ c ∈ cs, c.fn ≠ .xxerror_) (i : Nat) :
    shotfileCalls (interleave lib i cs) = cs := by
  unfold shotfileCalls
  rw [filter_interleave lib _ (fun _ => rfl)]
  exact List.filter_eq_self.mpr (fun c hc => by simpa using h c hc)

theorem libCalls_ne_xxerror : ∀ c ∈ libCalls, c.fn ≠ .xxerror_ := by decide

/-! ## Properties of the trace -/

/-- C1: for every error sequence the loop issues 16 `wwinsert_` calls, while
the length handed to `wwtbase_` is 223; the number of indexed-signal writes
is therefore not the declared time-base length. -/
theorem C1_insert_count (lib : Nat → Int) :
    ((trace lib).filter (fun c => c.fn = .wwinsert_)).length = 16 ∧
    argAt .wwtbase_ 4 (trace lib) = [some (.int .length 223)] ∧
    ((trace lib).filter (fun c => c.fn = .wwinsert_)).length ≠ 223 := by
  have h : ((trace lib).filter (fun c => c.fn = .wwinsert_)).length = 16 := by
    rw [filter_trace lib _ (fun _ => rfl)]
    decide
  refine ⟨h, ?_, by omega⟩
  unfold argAt
  rw [argsOf_trace lib _ (by decide)]
  decide

/-- C2: for every error sequence the shotfile calls are, in order, one
`wwopen_`, one `wwtbase_`, one `wwainsert_`, a block of consecutive
`wwinsert_`, one `wwclose_`, then the read phase; `wwopen_` and `wwclose_`
occur once each and both are handed `&diaref`. -/
theorem C2_write_phase (lib : Nat → Int) :
    callNames (trace lib) =
      [.wwopen_, .wwtbase_, .wwainsert_] ++ List.replicate 16 .wwinsert_ ++
        [.wwclose_, .ddopen_, .ddainfo_, .ddagroup_, .ddcsgrp_, .ddcxsig_, .ddclose_] ∧
    argAt .wwopen_ 6 (trace lib) = [some (.ptr .diaref)] ∧
    argAt .wwclose_ 1 (trace lib) = [some (.ptr .diaref)] := by
  refine ⟨?_, ?_, ?_⟩
  · unfold callNames
    rw [shotfileCalls_trace]
    decide
  · unfold argAt
    rw [argsOf_trace lib _ (by decide)]
    decide
  · unfold argAt
    rw [argsOf_trace lib _ (by decide)]
    decide

/-- C3: for every error sequence the shotfile calls end with `wwclose_`
followed by exactly `ddopen_`, `ddainfo_`, `ddagroup_`, `ddcsgrp_`,
`ddcxsig_`, `ddclose_`; everything before that `wwclose_` is a write
routine, so each read routine is called once, and `ddclose_` is the last
shotfile call. -/
theorem C3_read_phase (lib : Nat → Int) :
    (callNames (trace lib)).dropWhile (fun r => r ≠ .wwclose_) =
      [.wwclose_, .ddopen_, .ddainfo_, .ddagroup_, .ddcsgrp_, .ddcxsig_, .ddclose_] ∧
    ((callNames (trace lib)).takeWhile (fun r => r ≠ .wwclose_)).all
      (fun r => r = .wwopen_ ∨ r = .wwtbase_ ∨ r = .wwainsert_ ∨ r = .wwinsert_) = true ∧
    (callNames (trace lib)).getLast? = some .ddclose_ := by
  unfold callNames
  rw [shotfileCalls_trace]
  decide

/-- C4: every `wwinsert_` call of the loop has the same arguments apart from
the index vector: name "Te", type code 2, length 16, the buffer `data` at
offset 0 and stride 1; the index vectors of different iterations differ. -/
theorem C4_same_source_buffer (lib : Nat → Int) :
    (argsOf .wwinsert_ (trace lib)).map (fun a => a.eraseIdx 7) =
      List.replicate 16
        [.ptr .err, .ptr .diaref, .cstr .sgname "Te", .int .typ 2, .int .length 16,
         .floats .data 0, .int .stride 1, .byval 8] ∧
    (argAt .wwinsert_ 7 (trace lib)).Nodup := by
  unfold argAt
  rw [argsOf_trace lib _ (by decide)]
  decide

/-- C5: the shotfile calls issued (routine, order, number and arguments) are
the same for any two error sequences. -/
theorem C5_continue_on_error (lib1 lib2 : Nat → Int) :
    shotfileCalls (trace lib1) = shotfileCalls (trace lib2) := by
  rw [shotfileCalls_trace, shotfileCalls_trace]

/-- C6: the trace is the list of its shotfile calls in which call number `n`
is followed at once by `xxerror_ (&err,&control," ",1)` with `err = lib n`
and `control = 3` when `lib n` is non-zero, and by nothing when it is zero. -/
theorem C6_report_iff_nonzero (lib : Nat → Int) :
    trace lib = interleave lib 0 (shotfileCalls (trace lib)) ∧
    (shotfileCalls (trace lib)).length = 26 ∧
    (∀ e : Int, report e =
      if e ≠ 0 then [⟨.xxerror_, [.int .err e, .int .control 3, .lit " ", .byval 1]⟩]
      else []) := by
  refine ⟨?_, ?_, fun e => rfl⟩
  · rw [shotfileCalls_trace]
    exact main_trace lib
  · rw [shotfileCalls_trace]
    decide

/-- C7 (as stated) fails: when only `wwopen_` fails, the program does not
stop after it. -/
theorem C7_counterexample :
    ¬ AbortsOnFailure failOpen ∧
    ((trace failOpen).take 3).map (fun c => c.fn) = [.wwopen_, .xxerror_, .wwtbase_] ∧
    (shotfileCalls (trace failOpen)).length = 26 := by
  refine ⟨?_, by rw [main_trace]; decide, by rw [shotfileCalls_trace]; decide⟩
  intro h
  have h1 := (h 0 (by decide) (by decide) (fun m hm => absurd hm (Nat.not_lt_zero m))).2
  rw [shotfileCalls_trace] at h1
  revert h1
  decide

/-- C7 (amended): when shotfile call number `n` stores a non-zero code, the
program calls `xxerror_` with that code right after it and goes on: the
shotfile calls before it and after it are those of the error-free run. -/
theorem C7_report_and_continue (lib : Nat → Int) (n : Nat) (hn : n < 26) (he : lib n ≠ 0) :
    ∃ pre c post, trace lib = pre ++ c :: errorCall (lib n) 3 :: post ∧
      (shotfileCalls (trace noError))[n]? = some c ∧
      shotfileCalls pre = (shotfileCalls (trace noError)).take n ∧
      shotfileCalls post = (shotfileCalls (trace noError)).drop (n + 1) := by
  have hlen : libCalls.length = 26 := by decide
  have hn2 : n < libCalls.length := by omega
  have hsplit : libCalls = libCalls.take n ++ libCalls[n] :: libCalls.drop (n + 1) := by
    rw [← List.drop_eq_getElem_cons hn2, List.take_append_drop]
  refine ⟨interleave lib 0 (libCalls.take n), libCalls[n],
    interleave lib (n + 1) (libCalls.drop (n + 1)), ?_, ?_, ?_, ?_⟩
  · rw [main_trace]
    conv_lhs => rw [hsplit]
    rw [interleave_append]
    have hr : report (lib n) = [errorCall (lib n) 3] := by simp [report, he]
    have hl : (List.take n libCalls).length = n := by
      rw [List.length_take]; omega
    simp [interleave, hr, hl]
  · rw [shotfileCalls_trace]
    exact List.getElem?_eq_getElem hn2
  · rw [shotfileCalls_trace]
    exact shotfileCalls_interleave lib _
      (fun c hc => libCalls_ne_xxerror c (List.mem_of_mem_take hc)) 0
  · rw [shotfileCalls_trace]
    exact shotfileCalls_interleave lib _
      (fun c hc => libCalls_ne_xxerror c (List.mem_of_mem_drop hc)) (n + 1)

/-- C7 (amended), at the run in which only `wwopen_` fails. -/
theorem C7_report_and_continue_witness :
    (0 < 26 ∧ failOpen 0 ≠ 0) ∧
    ∃ pre c post, trace failOpen = pre ++ c :: errorCall (failOpen 0) 3 :: post ∧
      (shotfileCalls (trace noError))[0]? = some c ∧
      shotfileCalls pre = (shotfileCalls (trace noError)).take 0 ∧
      shotfileCalls post = (shotfileCalls (trace noError)).drop (0 + 1) :=
  ⟨⟨by decide, by decide⟩, C7_report_and_continue failOpen 0 (by decide) (by decide)⟩

/-- C8: the hardcoded arguments.  `wwopen_` gets "AUGD", "YPR", 5010, "new",
-1 and the hidden lengths 4, 3, 3 (the lengths of the three strings);
`wwtbase_` gets "time", `wwainsert_` gets "rp", every `wwinsert_` gets "Te";
`wwclose_` gets "lock", "maxspace" and the hidden lengths 4 and 8; `ddopen_`
gets the experiment, diagnostic and shot number of `wwopen_`. -/
theorem C8_hardcoded_arguments (lib : Nat → Int) :
    argsOf .wwopen_ (trace lib) =
      [[.ptr .err, .cstr .exp "AUGD", .cstr .diag "YPR", .int .shot 5010, .lit "new",
        .int .ed (-1), .ptr .diaref, .ptr .tim, .byval 4, .byval 3, .byval 3, .byval 18]] ∧
    ("AUGD".length, "YPR".length, "new".length) = (4, 3, 3) ∧
    argAt .wwtbase_ 2 (trace lib) = [some (.cstr .tname "time")] ∧
    argAt .wwainsert_ 2 (trace lib) = [some (.cstr .name "rp")] ∧
    argAt .wwinsert_ 2 (trace lib) = List.replicate 16 (some (.cstr .sgname "Te")) ∧
    argsOf .wwclose_ (trace lib) =
      [[.ptr .err, .ptr .diaref, .lit "lock", .lit "maxspace", .byval 4, .byval 8]] ∧
    ("lock".length, "maxspace".length) = (4, 8) ∧
    (argsOf .ddopen_ (trace lib)).map (fun a => (a[1]?, a[2]?, a[3]?)) =
      (argsOf .wwopen_ (trace lib)).map (fun a => (a[1]?, a[2]?, a[3]?)) := by
  unfold argAt
  rw [argsOf_trace lib _ (by decide), argsOf_trace lib _ (by decide),
    argsOf_trace lib _ (by decide), argsOf_trace lib _ (by decide),
    argsOf_trace lib _ (by decide), argsOf_trace lib _ (by decide)]
  decide

/-- C9: for every error sequence the `wwinsert_` calls carry the index
vectors (1,0,0), (2,0,0), ..., (16,0,0) in this order and the block length
16; the loop stops there, so the index (17,0,0) is never written although
the time base handed to `wwtbase_` has length 223. -/
theorem C9_indices_written (lib : Nat → Int) :
    argAt .wwinsert_ 7 (trace lib) =
      (List.range 16).map (fun j => some (.ints .ind [(j : Int) + 1, 0, 0])) ∧
    argAt .wwinsert_ 4 (trace lib) = List.replicate 16 (some (.int .length 16)) ∧
    some (.ints .ind [17, 0, 0]) ∉ argAt .wwinsert_ 7 (trace lib) ∧
    argAt .wwtbase_ 4 (trace lib) = [some (.int .length 223)] := by
  unfold argAt
  rw [argsOf_trace lib _ (by decide), argsOf_trace lib _ (by decide)]
  decide

/-- C10: the count and buffer arguments, exactly as passed.  `wwtbase_` gets
`length` = 223 with `time`; `wwainsert_` gets `sizes` = (16,0,0) with `adat`;
every `wwinsert_` gets `length` = 16 with `data`; `ddagroup_` gets `t` = 1
with `adat`; `ddcsgrp_` and `ddcxsig_` get `length` = 16 with `data`; every
buffer pointer is the array itself (offset 0); `ddcxsig_` gets the index
vector (1,0,0).  The declared capacities are `time[223]`, `adat[16]`,
`data[182]`, and every count is positive and, counted from the pointer
passed, at most the capacity of its array. -/
theorem C10_counts_within_capacity (lib : Nat → Int) :
    (argAt .wwtbase_ 4 (trace lib) = [some (.int .length 223)] ∧
      argAt .wwtbase_ 5 (trace lib) = [some (.floats .time 0)]) ∧
    (argAt .wwainsert_ 7 (trace lib) = [some (.ints .sizes [16, 0, 0])] ∧
      argAt .wwainsert_ 6 (trace lib) = [some (.floats .adat 0)]) ∧
    (argAt .wwinsert_ 4 (trace lib) = List.replicate 16 (some (.int .length 16)) ∧
      argAt .wwinsert_ 5 (trace lib) = List.replicate 16 (some (.floats .data 0))) ∧
    (argAt .ddagroup_ 6 (trace lib) = [some (.int .t 1)] ∧
      argAt .ddagroup_ 7 (trace lib) = [some (.floats .adat 0)]) ∧
    (argAt .ddcsgrp_ 6 (trace lib) = [some (.int .length 16)] ∧
      argAt .ddcsgrp_ 7 (trace lib) = [some (.floats .data 0)]) ∧
    (argAt .ddcxsig_ 7 (trace lib) = [some (.int .length 16)] ∧
      argAt .ddcxsig_ 8 (trace lib) = [some (.floats .data 0)] ∧
      argAt .ddcxsig_ 5 (trace lib) = [some (.ints .ind [1, 0, 0])]) ∧
    (capacity .time, capacity .adat, capacity .data) = (223, 16, 182) ∧
    (trace lib).filterMap countAndBuffer =
      [(223, .time, 0), (16, .adat, 0)] ++ List.replicate 16 (16, .data, 0) ++
        [(1, .adat, 0), (16, .data, 0), (16, .data, 0)] ∧
    ((trace lib).filterMap countAndBuffer).all withinCapacity = true := by
  unfold argAt
  rw [filterMap_trace lib _ (fun _ => rfl), argsOf_trace lib .wwtbase_ (by decide),
    argsOf_trace lib .wwainsert_ (by decide), argsOf_trace lib .wwinsert_ (by decide),
    argsOf_trace lib .ddagroup_ (by decide), argsOf_trace lib .ddcsgrp_ (by decide),
    argsOf_trace lib .ddcxsig_ (by decide)]
  decide

end WriteShotfiles
